import Mathlib

/-!
Verification of the PicoSync core (`backend/config/core/pico_sync_manager.py`)
against its natural-language specification.

The embedding below translates the algorithmic parts of the program into
Lean definitions:

* `PicoFileWatcher` (debounced file-change detection) becomes explicit
  state passing over a ledger of last-accepted timestamps; wall-clock
  timestamps are rationals (Python `time.time()` values).
* `PicoSyncManager.monitor_usb` (device presence polling) becomes a step
  function on the monitor's recorded state, driven by per-tick enumeration
  results; a tick's enumeration may also raise, modelled with `Except`.
* `PicoSyncManager.sync_single_file` / `sync_directory` (the sync queue
  consumer) become functions from a filesystem snapshot, connectivity
  flags and a copy-outcome oracle to the list of external-tool invocations
  and the list of log entries produced.
* each `subprocess.run` call site of the transfer tool is recorded as an
  `Invocation` descriptor carrying the argument vector and the `timeout`
  argument actually passed at that site.
-/

namespace PicoSync

/-! ## String primitives

Python string operations used by the program, written over character
lists so that they evaluate by kernel reduction. -/

/-- Python `s.endswith(suffix)`. -/
def strEndsWith (s suffix : String) : Bool :=
  suffix.toList.reverse.isPrefixOf s.toList.reverse

/-- Substring containment on character lists. -/
def containsSub (needle : List Char) : List Char → Bool
  | [] => needle.isPrefixOf []
  | c :: cs => needle.isPrefixOf (c :: cs) || containsSub needle cs

/-- Python `needle in hay` on strings. -/
def strContains (hay needle : String) : Bool :=
  containsSub needle.toList hay.toList

/-- Python `s.lower()` (ASCII, which covers the identifiers compared). -/
def strToLower (s : String) : String :=
  String.mk (s.toList.map Char.toLower)

/-! ## File Change Detector (`PicoFileWatcher`) -/

/-- A filesystem event as delivered by the watchdog library: the path it
concerns and whether it is a directory event. -/
structure FSEvent where
  src_path : String
  is_directory : Bool
deriving Repr, DecidableEq

/-- The watcher's debounce ledger: `self.last_modified`, a dict from path
to the last accepted timestamp. -/
def Ledger := List (String × ℚ)

/-- Dictionary lookup: `path in self.last_modified` / `self.last_modified[path]`. -/
def ledgerGet : Ledger → String → Option ℚ
  | [], _ => none
  | (k, v) :: rest, p => if k = p then some v else ledgerGet rest p

/-- Dictionary update: `self.last_modified[path] = t`. -/
def ledgerSet : Ledger → String → ℚ → Ledger
  | [], p, t => [(p, t)]
  | (k, v) :: rest, p, t => if k = p then (p, t) :: rest else (k, v) :: ledgerSet rest p t

/-- `PicoFileWatcher.on_modified`: ignore directory events; for a path
ending in `.py`, discard the event when the ledger holds a timestamp less
than 1 second old, otherwise record the current time and invoke the
callback.  Returns the new ledger and the list of callback invocations
(paths passed to `self.callback`). -/
def on_modified (led : Ledger) (event : FSEvent) (current_time : ℚ) :
    Ledger × List String :=
  if event.is_directory then (led, [])
  else if strEndsWith event.src_path ".py" then
    match ledgerGet led event.src_path with
    | some last =>
        if current_time - last < 1 then (led, [])
        else (ledgerSet led event.src_path current_time, [event.src_path])
    | none => (ledgerSet led event.src_path current_time, [event.src_path])
  else (led, [])

/-- `PicoFileWatcher.on_created`: for a non-directory path ending in `.py`,
wait a 100 ms grace period (no effect on the ledger) and invoke the
callback unconditionally; the ledger is neither consulted nor updated. -/
def on_created (led : Ledger) (event : FSEvent) : Ledger × List String :=
  if !event.is_directory && strEndsWith event.src_path ".py" then
    (led, [event.src_path])
  else (led, [])

/-- A watcher input: an underlying `modified` event with its arrival time,
or a `created` event. -/
inductive WatchEvent
  | modified (event : FSEvent) (time : ℚ)
  | created (event : FSEvent)
deriving Repr

/-- Run the watcher over a sequence of events, accumulating all callback
invocations in order. -/
def runWatcher (led : Ledger) : List WatchEvent → Ledger × List String
  | [] => (led, [])
  | WatchEvent.modified e t :: rest =>
      let (led1, out1) := on_modified led e t
      let (led2, out2) := runWatcher led1 rest
      (led2, out1 ++ out2)
  | WatchEvent.created e :: rest =>
      let (led1, out1) := on_created led e
      let (led2, out2) := runWatcher led1 rest
      (led2, out1 ++ out2)

/-- Run `on_modified` over a list of timestamps for one fixed path,
counting the emitted change events. -/
def runModifiedTimes (led : Ledger) (p : String) : List ℚ → Ledger × ℕ
  | [] => (led, 0)
  | t :: ts =>
      let (led1, out) := on_modified led ⟨p, false⟩ t
      let (led2, n) := runModifiedTimes led1 p ts
      (led2, out.length + n)

/-! ## Device Presence Monitor (`PicoSyncManager.monitor_usb`) -/

/-- An entry of `serial.tools.list_ports.comports()`: device path, hardware
identifier and human-readable description. -/
structure PortInfo where
  device : String
  hwid : String
  description : String
deriving Repr, DecidableEq

/-- The port filter of `monitor_usb`: `'2e8a' in port.hwid.lower() or
'raspberry pi pico' in port.description.lower() or 'pico' in
port.description.lower()`. -/
def isPicoPort (port : PortInfo) : Bool :=
  strContains (strToLower port.hwid) "2e8a" ||
  strContains (strToLower port.description) "raspberry pi pico" ||
  strContains (strToLower port.description) "pico"

/-- The monitor's recorded state across poll ticks: the loop-local
`bootsel_detected` flag and the manager fields `pico_connected` /
`current_port`. -/
structure MonState where
  bootsel_detected : Bool
  pico_connected : Bool
  current_port : Option String
deriving Repr, DecidableEq

/-- The transition events the monitor can hand to the UI thread, plus the
`BootloaderLost` event named by the specification (the code never emits
it; it is included so that the specified trace is expressible). -/
inductive MEvent
  | bootloaderDetected (drive : String)
  | bootloaderLost
  | connected (port : String)
  | disconnected
deriving Repr, DecidableEq

/-- One poll tick's enumeration results.  `bootsel` is the result of
`find_bootsel_drive()` (the drive path found, if any); `serial` is the
result of `serial.tools.list_ports.comports()`.  Either enumeration may
raise, modelled by `Except.error`. -/
structure TickInput where
  bootsel : Except Unit (Option String)
  serial : Except Unit (List PortInfo)

/-- One iteration of the `while True` loop of `monitor_usb`.  Returns the
new state, the transition events fired this tick (in firing order), and
whether the `except` clause logged a "USB monitoring error".  An
exception aborts the rest of the tick body: state already updated before
the raise point is kept, everything after is skipped. -/
def monitorTick (st : MonState) (inp : TickInput) :
    MonState × List MEvent × Bool :=
  match inp.bootsel with
  | Except.error _ => (st, [], true)
  | Except.ok bootsel_drive =>
    let stEvs1 : MonState × List MEvent :=
      match bootsel_drive, st.bootsel_detected with
      | some drive, false =>
          ({ st with bootsel_detected := true }, [MEvent.bootloaderDetected drive])
      | none, true => ({ st with bootsel_detected := false }, [])
      | _, _ => (st, [])
    let st1 := stEvs1.1
    let evs1 := stEvs1.2
    match inp.serial with
    | Except.error _ => (st1, evs1, true)
    | Except.ok ports =>
      let pico_port := (ports.find? isPicoPort).map PortInfo.device
      match pico_port, st1.pico_connected with
      | some port, false =>
          ({ st1 with pico_connected := true, current_port := some port },
           evs1 ++ [MEvent.connected port], false)
      | none, true =>
          ({ st1 with pico_connected := false, current_port := none },
           evs1 ++ [MEvent.disconnected], false)
      | _, _ => (st1, evs1, false)

/-- Run the monitor loop over a scripted list of tick inputs, accumulating
the fired events in order and counting error-log entries. -/
def runMonitor (st : MonState) : List TickInput → MonState × List MEvent × ℕ
  | [] => (st, [], 0)
  | inp :: rest =>
      let (st1, evs1, err1) := monitorTick st inp
      let (st2, evs2, errs) := runMonitor st1 rest
      (st2, evs1 ++ evs2, (if err1 then 1 else 0) + errs)

/-- The monitor's initial state: `bootsel_detected = False`,
`self.pico_connected = False`, `self.current_port = None`. -/
def monInit : MonState := ⟨false, false, none⟩

/-- Is an event on the bootloader axis? -/
def isBootEvent : MEvent → Bool
  | MEvent.bootloaderDetected _ => true
  | MEvent.bootloaderLost => true
  | _ => false

/-- Is an event on the serial axis? -/
def isSerialEvent : MEvent → Bool
  | MEvent.connected _ => true
  | MEvent.disconnected => true
  | _ => false

/-! ## Filesystem snapshot and pattern matching -/

/-- A snapshot of a directory tree: a named file or a named directory with
children. -/
inductive FSNode
  | file (name : String)
  | dir (name : String) (children : List FSNode)
deriving Repr

/-- A file reference produced by enumeration: the full path handed to the
copy command and the basename used as the remote name. -/
structure FileRef where
  path : String
  name : String
deriving Repr, DecidableEq

/-- Glob matching as used by `Path(directory).glob(pattern)` on a single
path segment: `*` matches any (possibly empty) run of characters, `?`
matches exactly one character, any other pattern character matches
itself.  (Character classes are not modelled; the program's patterns are
plain suffix globs such as `*.py`.) -/
def globMatchL : List Char → List Char → Bool
  | [], s => s.isEmpty
  | '*' :: ps, s => s.tails.any (fun t => globMatchL ps t)
  | '?' :: ps, s =>
      match s with
      | [] => false
      | _ :: cs => globMatchL ps cs
  | p :: ps, s =>
      match s with
      | [] => false
      | c :: cs => p = c && globMatchL ps cs

/-- Glob matching on strings. -/
def globMatch (pattern s : String) : Bool :=
  globMatchL pattern.toList s.toList

/-- `os.walk` flattened to the files it yields: every file anywhere under
the given children, with its path built by joining names. -/
def walkAll (pre : String) : List FSNode → List FileRef
  | [] => []
  | FSNode.file n :: rest => ⟨pre ++ "/" ++ n, n⟩ :: walkAll pre rest
  | FSNode.dir n children :: rest =>
      walkAll (pre ++ "/" ++ n) children ++ walkAll pre rest

/-- The top-level entries of a directory as `(ref, isFile)` pairs, as seen
by `Path(directory).glob`/`is_file()`. -/
def topEntries (pre : String) : List FSNode → List (FileRef × Bool)
  | [] => []
  | FSNode.file n :: rest => (⟨pre ++ "/" ++ n, n⟩, true) :: topEntries pre rest
  | FSNode.dir n _ :: rest => (⟨pre ++ "/" ++ n, n⟩, false) :: topEntries pre rest

/-! ## Sync Dispatcher (`process_sync_queue`, `sync_single_file`,
`sync_directory`) -/

/-- The configuration fields read by `sync_directory`:
`self.config.get('file_types', '*.py')` and
`self.config.get('sync_subdirs', True)`. -/
structure SyncConfig where
  file_types : String
  sync_subdirs : Bool
deriving Repr

/-- A log entry produced through `self.log(message, level)`. -/
structure LogEntry where
  level : String
  message : String
deriving Repr, DecidableEq

/-- The file enumeration of `sync_directory`: with `sync_subdirs` it walks
the whole tree keeping files whose name ends in `.py` (the configured
pattern is not consulted on this branch); without it, it keeps the
top-level entries matching the configured glob pattern that are files. -/
def enumerateFiles (cfg : SyncConfig) (directory : String)
    (tree : List FSNode) : List FileRef :=
  if cfg.sync_subdirs then
    (walkAll directory tree).filter (fun f => strEndsWith f.name ".py")
  else
    ((topEntries directory tree).filter
      (fun e => globMatch cfg.file_types e.1.name && e.2)).map Prod.fst

/-- The per-file outcome log of the sync paths: `SUCCESS` when the copy's
exit code is zero, `ERROR` otherwise. -/
def fileLog (copyOk : String → Bool) (f : FileRef) : LogEntry :=
  if copyOk f.path then ⟨"SUCCESS", "Synced: " ++ f.name⟩
  else ⟨"ERROR", "Failed to sync " ++ f.name⟩

/-- Python `os.path.basename`: the part after the last `/`. -/
def basename (p : String) : String :=
  String.mk ((p.toList.reverse.takeWhile (fun c => c != '/')).reverse)

/-- `sync_single_file`: if the device is not connected, return silently
(no invocation, no log).  Otherwise invoke
`mpremote connect auto cp <path> :<basename>` once; log `SUCCESS` when the
copy oracle reports success (exit code 0), `ERROR` otherwise.  Returns the
copy invocations made (as file references) and the log entries. -/
def sync_single_file (pico_connected : Bool) (copyOk : String → Bool)
    (filepath : String) : List FileRef × List LogEntry :=
  if !pico_connected then ([], [])
  else
    let filename := basename filepath
    ([⟨filepath, filename⟩], [fileLog copyOk ⟨filepath, filename⟩])

/-- The per-file loop of `sync_directory`: at iteration `i` the loop first
re-reads `self.pico_connected` (given by `connAt i`); if it is false the
loop breaks, abandoning all remaining files.  Otherwise the file's copy is
invoked and its outcome logged, and the loop continues past failures. -/
def syncLoop (copyOk : String → Bool) (connAt : ℕ → Bool) :
    ℕ → List FileRef → List FileRef × List LogEntry
  | _, [] => ([], [])
  | i, f :: fs =>
      if connAt i then
        let (cs, ls) := syncLoop copyOk connAt (i + 1) fs
        (f :: cs, fileLog copyOk f :: ls)
      else ([], [])

/-- `sync_directory`: if the device is not connected at drain time, return
silently (no invocation, no log).  Otherwise enumerate the files, run the
per-file loop, and finish with the completion log naming
`total = len(files)` — emitted even when the loop broke early. -/
def sync_directory (conn0 : Bool) (connAt : ℕ → Bool)
    (copyOk : String → Bool) (cfg : SyncConfig) (directory : String)
    (tree : List FSNode) : List FileRef × List LogEntry :=
  if !conn0 then ([], [])
  else
    let files := enumerateFiles cfg directory tree
    let (cs, ls) := syncLoop copyOk connAt 0 files
    (cs, ls ++ [⟨"INFO", "Directory sync complete: " ++ toString files.length ++ " files"⟩])

/-- A work item of the sync queue: `('file', path)` or `('full', dir)`. -/
inductive WorkItem
  | singleFile (path : String)
  | fullDirectory (directory : String)
deriving Repr, DecidableEq

/-- One drain step of `process_sync_queue`: the popped item is dispatched
to `sync_single_file` or `sync_directory` and then discarded — it is never
pushed back.  Connectivity is read only now, at drain time. -/
def processItem (conn0 : Bool) (connAt : ℕ → Bool) (copyOk : String → Bool)
    (cfg : SyncConfig) (tree : List FSNode) :
    WorkItem → List FileRef × List LogEntry
  | WorkItem.singleFile p => sync_single_file conn0 copyOk p
  | WorkItem.fullDirectory d => sync_directory conn0 connAt copyOk cfg d tree

/-- The consumer loop of `process_sync_queue` over a drained prefix of the
queue: each popped item is processed exactly once and then discarded —
never retried, never pushed back. -/
def drainQueue (conn0 : Bool) (connAt : ℕ → Bool) (copyOk : String → Bool)
    (cfg : SyncConfig) (tree : List FSNode) :
    List WorkItem → List FileRef × List LogEntry
  | [] => ([], [])
  | it :: rest =>
      let (cs, ls) := processItem conn0 connAt copyOk cfg tree it
      let (cs2, ls2) := drainQueue conn0 connAt copyOk cfg tree rest
      (cs ++ cs2, ls ++ ls2)

/-! ## Transfer Gateway invocation descriptors -/

/-- One `subprocess.run` call site invoking the external transfer tool:
the argument vector and the `timeout=` argument passed there (`none` when
the call site passes no timeout, so the wait is unbounded). -/
structure Invocation where
  args : List String
  timeoutSec : Option ℕ
deriving Repr, DecidableEq

/-- The call in `detect_pico_model`: `subprocess.run([...], timeout=5)`. -/
def detect_pico_model_cmd : Invocation :=
  ⟨["mpremote", "connect", "auto", "exec",
    "import sys; print(sys.implementation.name)"], some 5⟩

/-- The call in `check_micropython`: `subprocess.run([...], timeout=5)`. -/
def check_micropython_cmd (port : String) : Invocation :=
  ⟨["mpremote", "connect", port, "ls"], some 5⟩

/-- The copy call in `sync_single_file` and `sync_directory`:
`subprocess.run(['mpremote','connect','auto','cp',filepath,':'+filename], ...)`
with no `timeout=` argument. -/
def sync_copy_cmd (filepath filename : String) : Invocation :=
  ⟨["mpremote", "connect", "auto", "cp", filepath, ":" ++ filename], none⟩

/-- The listing call in `refresh_pico_files`, no `timeout=` argument. -/
def refresh_ls_cmd : Invocation :=
  ⟨["mpremote", "connect", "auto", "ls"], none⟩

/-- The call in `reset_pico`, no `timeout=` argument. -/
def reset_cmd : Invocation :=
  ⟨["mpremote", "connect", "auto", "reset"], none⟩

/-! ## Configuration persistence (`load_config` / `save_config`)

The configuration is a JSON object whose values, on the save path, are the
seven string/boolean settings.  `json.dump`/`json.load` are exact on flat
objects of strings and booleans, so the stored file is modelled as the
dictionary itself; a missing or unparsable file loads as `{}`. -/

/-- A JSON value as stored in the configuration file (only the kinds the
save path writes). -/
inductive JVal
  | s (v : String)
  | b (v : Bool)
deriving Repr, DecidableEq

/-- The configuration dictionary `self.config`. -/
def ConfigDict := List (String × JVal)

/-- Dictionary lookup (`dict.get(key)` without default). -/
def cfgGet : ConfigDict → String → Option JVal
  | [], _ => none
  | (k, v) :: rest, key => if k = key then some v else cfgGet rest key

/-- Dictionary update (`self.config[key] = value`). -/
def cfgSet : ConfigDict → String → JVal → ConfigDict
  | [], key, v => [(key, v)]
  | (k, w) :: rest, key, v =>
      if k = key then (key, v) :: rest else (k, w) :: cfgSet rest key v

/-- `self.config.get(key, default)` where a string is expected. -/
def cfgGetS (cfg : ConfigDict) (key dflt : String) : String :=
  match cfgGet cfg key with
  | some (JVal.s v) => v
  | _ => dflt

/-- `self.config.get(key, default)` where a boolean is expected. -/
def cfgGetB (cfg : ConfigDict) (key : String) (dflt : Bool) : Bool :=
  match cfgGet cfg key with
  | some (JVal.b v) => v
  | _ => dflt

/-- The seven user-visible settings as held in the UI variables. -/
structure Settings where
  sync_directory : String
  auto_sync : Bool
  file_types : String
  sync_subdirs : Bool
  auto_flash : Bool
  show_notifications : Bool
  log_level : String
deriving Repr, DecidableEq

/-- `save_config`: write the seven UI values into `self.config` and dump
it to the configuration file (modelled as returning the dictionary that
gets stored). -/
def save_config (cfg : ConfigDict) (ui : Settings) : ConfigDict :=
  let c1 := cfgSet cfg "sync_directory" (JVal.s ui.sync_directory)
  let c2 := cfgSet c1 "auto_sync" (JVal.b ui.auto_sync)
  let c3 := cfgSet c2 "file_types" (JVal.s ui.file_types)
  let c4 := cfgSet c3 "sync_subdirs" (JVal.b ui.sync_subdirs)
  let c5 := cfgSet c4 "auto_flash" (JVal.b ui.auto_flash)
  let c6 := cfgSet c5 "show_notifications" (JVal.b ui.show_notifications)
  cfgSet c6 "log_level" (JVal.s ui.log_level)

/-- `load_config`: parse the stored file, falling back to `{}` when the
file is missing or unreadable. -/
def load_config (stored : Option ConfigDict) : ConfigDict :=
  match stored with
  | some d => d
  | none => []

/-- The reads performed at next startup: the constructor and
`create_settings_tab` populate the UI variables through
`self.config.get(key, default)` with these defaults. -/
def startupSettings (cfg : ConfigDict) : Settings :=
  { sync_directory := cfgGetS cfg "sync_directory" ""
    auto_sync := cfgGetB cfg "auto_sync" true
    file_types := cfgGetS cfg "file_types" "*.py"
    sync_subdirs := cfgGetB cfg "sync_subdirs" true
    auto_flash := cfgGetB cfg "auto_flash" false
    show_notifications := cfgGetB cfg "show_notifications" true
    log_level := cfgGetS cfg "log_level" "INFO" }

/-! ## Theorems -/

/-- C1, counterexample.  On the scripted sequence [no device] →
[bootloader sentinel present] → [no device] → [serial port present] the
monitor emits only `BootloaderDetected` and `Connected`: the code fires no
event at all when the bootloader drive disappears (it merely resets the
`bootsel_detected` flag), so the claimed trace `[BootloaderDetected,
BootloaderLost, Connected]` does not occur. -/
theorem c1_counterexample :
    (runMonitor monInit
      [⟨Except.ok none, Except.ok []⟩,
       ⟨Except.ok (some "E:"), Except.ok []⟩,
       ⟨Except.ok none, Except.ok []⟩,
       ⟨Except.ok none, Except.ok [⟨"COM3", "usb vid:pid=2e8a:0005", "board"⟩]⟩]).2.1 =
      [MEvent.bootloaderDetected "E:", MEvent.connected "COM3"] ∧
    MEvent.bootloaderLost ∉ (runMonitor monInit
      [⟨Except.ok none, Except.ok []⟩,
       ⟨Except.ok (some "E:"), Except.ok []⟩,
       ⟨Except.ok none, Except.ok []⟩,
       ⟨Except.ok none, Except.ok [⟨"COM3", "usb vid:pid=2e8a:0005", "board"⟩]⟩]).2.1 ∧
    (runMonitor monInit
      [⟨Except.ok none, Except.ok []⟩,
       ⟨Except.ok (some "E:"), Except.ok []⟩,
       ⟨Except.ok none, Except.ok []⟩,
       ⟨Except.ok none, Except.ok [⟨"COM3", "usb vid:pid=2e8a:0005", "board"⟩]⟩]).2.1 ≠
      [MEvent.bootloaderDetected "E:", MEvent.bootloaderLost, MEvent.connected "COM3"] := by
  decide

/-- C1, amended.  Per successful poll tick the monitor fires at most one
bootloader-axis event and at most one serial-axis event (so at most two
events per tick, not at most one); no event fires when the tick's
enumeration reports the same presence state as recorded; and the scripted
sequence [no device] → [bootloader sentinel] → [no device] → [serial
port] emits exactly `[BootloaderDetected, Connected]` — the loss of the
bootloader drive resets the recorded flag without emitting any event. -/
theorem c1_monitor_transitions (st : MonState) (d : Option String)
    (ports : List PortInfo) :
    ((monitorTick st ⟨Except.ok d, Except.ok ports⟩).2.1.countP isBootEvent ≤ 1 ∧
     (monitorTick st ⟨Except.ok d, Except.ok ports⟩).2.1.countP isSerialEvent ≤ 1) ∧
    (d.isSome = st.bootsel_detected →
      (ports.find? isPicoPort).isSome = st.pico_connected →
      (monitorTick st ⟨Except.ok d, Except.ok ports⟩).2.1 = []) ∧
    (runMonitor monInit
      [⟨Except.ok none, Except.ok []⟩,
       ⟨Except.ok (some "E:"), Except.ok []⟩,
       ⟨Except.ok none, Except.ok []⟩,
       ⟨Except.ok none, Except.ok [⟨"COM3", "usb vid:pid=2e8a:0005", "board"⟩]⟩]).2.1 =
      [MEvent.bootloaderDetected "E:", MEvent.connected "COM3"] := by
  refine ⟨?_, ?_, by decide⟩ <;>
  · obtain ⟨bd, pc, cp⟩ := st
    rcases d with _ | drive <;> cases bd <;> cases pc <;>
      rcases h : ports.find? isPicoPort with _ | port <;>
      simp [monitorTick, h, isBootEvent, isSerialEvent]

/-- C1, witness: a tick whose enumeration matches the recorded state
(bootloader drive present and recorded, no serial port and none recorded)
fires no event. -/
theorem c1_monitor_transitions_witness :
    (monitorTick ⟨true, false, none⟩
      ⟨Except.ok (some "D:"), Except.ok []⟩).2.1 = [] :=
  (c1_monitor_transitions ⟨true, false, none⟩ (some "D:") []).2.1 rfl rfl

/-- C8, counterexample.  With the device recorded as connected, a tick
whose serial enumeration raises leaves the recorded state unchanged and
fires no event at all — in particular no `Disconnected` — whereas the
claim says the failed tick is treated as "no device found" and produces
the loss transition. -/
theorem c8_counterexample :
    monitorTick ⟨false, true, some "COM3"⟩ ⟨Except.ok none, Except.error ()⟩ =
      (⟨false, true, some "COM3"⟩, [], true) ∧
    MEvent.disconnected ∉
      (monitorTick ⟨false, true, some "COM3"⟩
        ⟨Except.ok none, Except.error ()⟩).2.1 := by
  decide

/-- C8, amended.  An enumeration failure is caught and logged as a "USB
monitoring error" and the polling loop continues with the next tick, but
the failed tick is not treated as "no device found": it aborts the rest
of the tick body, leaving the recorded presence state unchanged and
firing no transition for the failed enumeration — a device recorded
present stays recorded present and its loss transition does not fire on
the failed tick. -/
theorem c8_error_handling (st : MonState) (s : Except Unit (List PortInfo))
    (d : Option String) (rest : List TickInput) :
    monitorTick st ⟨Except.error (), s⟩ = (st, [], true) ∧
    ((monitorTick st ⟨Except.ok d, Except.error ()⟩).2.2 = true ∧
     (monitorTick st ⟨Except.ok d, Except.error ()⟩).1.pico_connected =
       st.pico_connected ∧
     (monitorTick st ⟨Except.ok d, Except.error ()⟩).1.current_port =
       st.current_port ∧
     (monitorTick st ⟨Except.ok d, Except.error ()⟩).2.1.countP isSerialEvent = 0) ∧
    runMonitor st (⟨Except.error (), s⟩ :: rest) =
      ((runMonitor st rest).1, (runMonitor st rest).2.1,
       (runMonitor st rest).2.2 + 1) := by
  refine ⟨rfl, ?_, ?_⟩
  · obtain ⟨bd, pc, cp⟩ := st
    rcases d with _ | drive <;> cases bd <;>
      simp [monitorTick, isSerialEvent]
  · simp [runMonitor, monitorTick, Nat.add_comm]

/-- Updating the ledger at a path and reading that path back gives the
written timestamp. -/
theorem ledgerGet_set_same (led : Ledger) (p : String) (t : ℚ) :
    ledgerGet (ledgerSet led p t) p = some t := by
  induction led with
  | nil => simp [ledgerGet, ledgerSet]
  | cons kv rest ih =>
      obtain ⟨k, v⟩ := kv
      by_cases h : k = p <;> simp [ledgerGet, ledgerSet, h, ih]

/-- Once a timestamp `t0` is recorded for a path, every further `modified`
event within the debounce window of `t0` is discarded and the ledger is
left untouched. -/
theorem burstAux (p : String) (hp : strEndsWith p ".py" = true) (t0 : ℚ)
    (ts : List ℚ) (hts : ∀ t ∈ ts, t - t0 < 1) :
    ∀ led : Ledger, ledgerGet led p = some t0 →
      (runModifiedTimes led p ts).2 = 0 ∧ (runModifiedTimes led p ts).1 = led := by
  induction ts with
  | nil => intro led _; simp [runModifiedTimes]
  | cons t ts ih =>
      intro led hled
      have h1 : t - t0 < 1 := hts t (by simp)
      have h2 : ∀ t' ∈ ts, t' - t0 < 1 := fun t' ht' => hts t' (by simp [ht'])
      have hstep : on_modified led ⟨p, false⟩ t = (led, []) := by
        simp [on_modified, hp, hled, h1]
      obtain ⟨ihn, ihl⟩ := ih h2 led hled
      simp [runModifiedTimes, hstep, ihn, ihl]

/-- With a timestamp recorded for the path, a sequence of `modified`
events each spaced more than the debounce window after its predecessor is
accepted in full. -/
theorem spacedAux (p : String) (hp : strEndsWith p ".py" = true) :
    ∀ (ts : List ℚ) (led : Ledger) (last : ℚ),
      ledgerGet led p = some last →
      List.Chain (fun a b => 1 < b - a) last ts →
      (runModifiedTimes led p ts).2 = ts.length := by
  intro ts
  induction ts with
  | nil => intro led last _ _; simp [runModifiedTimes]
  | cons t ts ih =>
      intro led last hled hchain
      rw [List.chain_cons] at hchain
      obtain ⟨h1, hchain'⟩ := hchain
      have hnl : ¬ (t - last < 1) := by linarith
      have hstep : on_modified led ⟨p, false⟩ t = (ledgerSet led p t, [p]) := by
        simp [on_modified, hp, hled, hnl]
      have := ih (ledgerSet led p t) t (ledgerGet_set_same led p t) hchain'
      simp [runModifiedTimes, hstep, this, Nat.add_comm]

/-- C2: for a fresh pattern-matching path, a rapid burst of `modified`
events all within the 1-second debounce window of the first (accepted)
event emits exactly one change event; events each spaced more than the
window after the previously accepted one all emit; and a discarded event
leaves the DebounceLedger untouched — the timestamp is recorded only when
an event is accepted. -/
theorem c2_debounce :
    (∀ (led : Ledger) (p : String) (t0 : ℚ) (ts : List ℚ),
        strEndsWith p ".py" = true → ledgerGet led p = none →
        (∀ t ∈ ts, t - t0 < 1) →
        (runModifiedTimes led p (t0 :: ts)).2 = 1) ∧
    (∀ (led : Ledger) (p : String) (t0 : ℚ) (ts : List ℚ),
        strEndsWith p ".py" = true → ledgerGet led p = none →
        List.Chain (fun a b => 1 < b - a) t0 ts →
        (runModifiedTimes led p (t0 :: ts)).2 = ts.length + 1) ∧
    (∀ (led : Ledger) (ev : FSEvent) (t : ℚ),
        (on_modified led ev t).2 = [] → (on_modified led ev t).1 = led) := by
  refine ⟨?_, ?_, ?_⟩
  · intro led p t0 ts hp hnone hts
    have hstep : on_modified led ⟨p, false⟩ t0 = (ledgerSet led p t0, [p]) := by
      simp [on_modified, hp, hnone]
    have := burstAux p hp t0 ts hts (ledgerSet led p t0) (ledgerGet_set_same led p t0)
    simp [runModifiedTimes, hstep, this.1]
  · intro led p t0 ts hp hnone hchain
    have hstep : on_modified led ⟨p, false⟩ t0 = (ledgerSet led p t0, [p]) := by
      simp [on_modified, hp, hnone]
    have := spacedAux p hp ts (ledgerSet led p t0) t0 (ledgerGet_set_same led p t0) hchain
    simp [runModifiedTimes, hstep, this, Nat.add_comm]
  · intro led ev t h
    by_cases hd : ev.is_directory
    · simp [on_modified, hd]
    · by_cases hs : strEndsWith ev.src_path ".py"
      · rcases hm : ledgerGet led ev.src_path with _ | last
        · simp [on_modified, hd, hs, hm] at h
        · by_cases hlt : t - last < 1
          · simp [on_modified, hd, hs, hm, hlt]
          · simp [on_modified, hd, hs, hm, hlt] at h
      · simp [on_modified, hd, hs]

/-- C2, witness: burst `[0, 0]` on a fresh `.py` path emits once; spaced
`[0, 2]` emits twice; a directory event is discarded with the ledger kept. -/
theorem c2_debounce_witness :
    strEndsWith "a.py" ".py" = true ∧
    ledgerGet [] "a.py" = none ∧
    (∀ t ∈ [(0 : ℚ)], t - 0 < 1) ∧
    (runModifiedTimes [] "a.py" [0, 0]).2 = 1 ∧
    List.Chain (fun a b => 1 < b - a) (0 : ℚ) [2] ∧
    (runModifiedTimes [] "a.py" [0, 2]).2 = 2 ∧
    (on_modified [] ⟨"a.py", true⟩ 0).2 = [] ∧
    (on_modified [] ⟨"a.py", true⟩ 0).1 = [] :=
  ⟨by decide, rfl, by simp,
   c2_debounce.1 [] "a.py" 0 [0] (by decide) rfl (by simp),
   by simp,
   c2_debounce.2.1 [] "a.py" 0 [2] (by decide) rfl (by simp),
   rfl,
   c2_debounce.2.2 [] ⟨"a.py", true⟩ 0 rfl⟩

/-- C10: a `created` event never consults or updates the DebounceLedger —
the handler returns the ledger unchanged for every input — and on a fresh
pattern-matching path the pair (creation, then an underlying `modified`
event at any later instant, in particular within the debounce window of
the creation) emits two change events, because no timestamp was recorded
at creation time. -/
theorem c10_created_no_debounce :
    (∀ (led : Ledger) (ev : FSEvent), (on_created led ev).1 = led) ∧
    (∀ (led : Ledger) (p : String) (t' : ℚ),
        strEndsWith p ".py" = true → ledgerGet led p = none →
        (runWatcher led [WatchEvent.created ⟨p, false⟩,
                         WatchEvent.modified ⟨p, false⟩ t']).2 = [p, p]) := by
  constructor
  · intro led ev
    by_cases h : (!ev.is_directory && strEndsWith ev.src_path ".py") = true <;>
      simp [on_created, h]
  · intro led p t' hp hnone
    simp [runWatcher, on_created, on_modified, hp, hnone]

/-- C10, witness: creating `a.py` and modifying it immediately (both at
time 0) emits two change events, and a creation leaves a non-trivial
ledger untouched. -/
theorem c10_created_no_debounce_witness :
    strEndsWith "a.py" ".py" = true ∧
    ledgerGet [] "a.py" = none ∧
    (on_created [("b.py", 5)] ⟨"a.py", false⟩).1 = [("b.py", 5)] ∧
    (runWatcher [] [WatchEvent.created ⟨"a.py", false⟩,
                    WatchEvent.modified ⟨"a.py", false⟩ 0]).2 = ["a.py", "a.py"] :=
  ⟨by decide, rfl,
   c10_created_no_debounce.1 [("b.py", 5)] ⟨"a.py", false⟩,
   c10_created_no_debounce.2 [] "a.py" 0 (by decide) rfl⟩

/-- Reading back the key just written. -/
theorem cfgGet_set_same (d : ConfigDict) (k : String) (v : JVal) :
    cfgGet (cfgSet d k v) k = some v := by
  induction d with
  | nil => simp [cfgGet, cfgSet]
  | cons kv rest ih =>
      obtain ⟨k', v'⟩ := kv
      by_cases h : k' = k <;> simp [cfgGet, cfgSet, h, ih]

/-- Writing one key leaves the others readable as before. -/
theorem cfgGet_set_ne (d : ConfigDict) (k k' : String) (v : JVal)
    (h : k' ≠ k) : cfgGet (cfgSet d k' v) k = cfgGet d k := by
  induction d with
  | nil => simp [cfgGet, cfgSet, h]
  | cons kv rest ih =>
      obtain ⟨k'', v''⟩ := kv
      by_cases h2 : k'' = k' <;> by_cases h3 : k'' = k <;>
        simp_all [cfgGet, cfgSet]

/-- C9: saving the seven settings and loading the configuration at the
next startup reproduces exactly the saved directory, pattern and flag
values, for every prior configuration dictionary. -/
theorem c9_config_roundtrip (cfg : ConfigDict) (ui : Settings) :
    startupSettings (load_config (some (save_config cfg ui))) = ui := by
  simp [startupSettings, load_config, save_config, cfgGetS, cfgGetB,
    cfgGet_set_same, cfgGet_set_ne]

/-- With the device connected at every per-file check, the batch loop
attempts every file in order, logging each outcome. -/
theorem syncLoop_true (copyOk : String → Bool) :
    ∀ (files : List FileRef) (i : ℕ),
      syncLoop copyOk (fun _ => true) i files =
        (files, files.map (fileLog copyOk)) := by
  intro files
  induction files with
  | nil => intro i; simp [syncLoop]
  | cons f fs ih => intro i; simp [syncLoop, ih (i + 1)]

/-- When the connected flag is true for the first `k` per-file checks and
false at check `k`, the batch loop processes exactly the first `k` files
and abandons the rest. -/
theorem syncLoop_break (copyOk : String → Bool) (connAt : ℕ → Bool) :
    ∀ (files : List FileRef) (i k : ℕ),
      (∀ j, j < k → connAt (i + j) = true) → connAt (i + k) = false →
      k < files.length →
      syncLoop copyOk connAt i files =
        (files.take k, (files.take k).map (fileLog copyOk)) := by
  intro files
  induction files with
  | nil => intro i k _ _ hk; simp at hk
  | cons f fs ih =>
      intro i k hconn hfail hk
      cases k with
      | zero =>
          have : connAt i = false := by simpa using hfail
          simp [syncLoop, this]
      | succ k =>
          have h0 : connAt i = true := by simpa using hconn 0 (Nat.succ_pos k)
          have hconn' : ∀ j, j < k → connAt (i + 1 + j) = true := by
            intro j hj
            have := hconn (j + 1) (Nat.succ_lt_succ hj)
            simpa [Nat.add_assoc, Nat.add_comm 1 j] using this
          have hfail' : connAt (i + 1 + k) = false := by
            simpa [Nat.add_assoc, Nat.add_comm 1 k] using hfail
          have hk' : k < fs.length := Nat.lt_of_succ_lt_succ (by simpa using hk)
          simp [syncLoop, h0, ih (i + 1) k hconn' hfail' hk']

/-- C3, counterexample.  With `sync_subdirs` set and the configured
pattern `*.txt`, a directory holding `a.txt` (matching) and `b.py`
(non-matching) produces exactly one copy invocation — for the
non-matching `b.py` — and none for the matching `a.txt`: the recursive
branch hardcodes the `.py` suffix and ignores the configured pattern. -/
theorem c3_counterexample :
    globMatch "*.txt" "b.py" = false ∧
    globMatch "*.txt" "a.txt" = true ∧
    (sync_directory true (fun _ => true) (fun _ => true) ⟨"*.txt", true⟩ "/d"
      [FSNode.file "a.txt", FSNode.file "b.py"]).1 = [⟨"/d/b.py", "b.py"⟩] ∧
    (⟨"/d/a.txt", "a.txt"⟩ : FileRef) ∉
      (sync_directory true (fun _ => true) (fun _ => true) ⟨"*.txt", true⟩ "/d"
        [FSNode.file "a.txt", FSNode.file "b.py"]).1 := by
  refine ⟨by decide, by decide, ?_, ?_⟩ <;>
  · simp only [sync_directory, enumerateFiles, walkAll]
    decide

/-- C3, amended.  With the device connected throughout, a `FullDirectory`
item makes exactly one copy invocation per enumerated file, in order;
the enumeration selects, when the recurse flag is set, the files anywhere
in the tree whose name ends in `.py` (the configured pattern is ignored on
this branch), and otherwise the top-level files whose name matches the
configured glob pattern. -/
theorem c3_directory_enumeration (copyOk : String → Bool) (cfg : SyncConfig)
    (d : String) (tree : List FSNode) :
    (sync_directory true (fun _ => true) copyOk cfg d tree).1 =
      enumerateFiles cfg d tree ∧
    (cfg.sync_subdirs = true →
      enumerateFiles cfg d tree =
        (walkAll d tree).filter (fun f => strEndsWith f.name ".py")) ∧
    (cfg.sync_subdirs = false →
      enumerateFiles cfg d tree =
        ((topEntries d tree).filter
          (fun e => globMatch cfg.file_types e.1.name && e.2)).map Prod.fst) := by
  refine ⟨?_, ?_, ?_⟩
  · simp [sync_directory, syncLoop_true]
  · intro h; simp [enumerateFiles, h]
  · intro h; simp [enumerateFiles, h]

/-- C3, witness: the recursive enumeration over `{a.txt, b.py}` under
pattern `*.txt` and the non-recursive one over `{b.py}` under `*.py`. -/
theorem c3_directory_enumeration_witness :
    enumerateFiles ⟨"*.txt", true⟩ "/d" [FSNode.file "a.txt", FSNode.file "b.py"] =
      (walkAll "/d" [FSNode.file "a.txt", FSNode.file "b.py"]).filter
        (fun f => strEndsWith f.name ".py") ∧
    enumerateFiles ⟨"*.py", false⟩ "/d" [FSNode.file "b.py"] =
      ((topEntries "/d" [FSNode.file "b.py"]).filter
        (fun e => globMatch "*.py" e.1.name && e.2)).map Prod.fst :=
  ⟨(c3_directory_enumeration (fun _ => true) ⟨"*.txt", true⟩ "/d"
      [FSNode.file "a.txt", FSNode.file "b.py"]).2.1 rfl,
   (c3_directory_enumeration (fun _ => true) ⟨"*.py", false⟩ "/d"
      [FSNode.file "b.py"]).2.2 rfl⟩

/-- C4, counterexample.  A work item drained while the device is
disconnected produces no Transfer Gateway invocation and also no log
entry — the logs are empty, so the drop is a silent no-op, contrary to
the claimed log entry. -/
theorem c4_counterexample :
    sync_single_file false (fun _ => true) "/d/a.py" = ([], []) ∧
    sync_directory false (fun _ => true) (fun _ => true) ⟨"*.py", true⟩ "/d"
      [FSNode.file "a.py"] = ([], []) := by
  decide

/-- C4, amended.  A work item popped while the device is not connected at
drain time produces no Transfer Gateway invocation and no log entry — the
drop is silent — and the item is consumed exactly once, never retried or
requeued: draining `item :: rest` processes `item` once and continues
with `rest`. -/
theorem c4_silent_drop :
    (∀ (copyOk : String → Bool) (fp : String),
        sync_single_file false copyOk fp = ([], [])) ∧
    (∀ (connAt : ℕ → Bool) (copyOk : String → Bool) (cfg : SyncConfig)
        (d : String) (tree : List FSNode),
        sync_directory false connAt copyOk cfg d tree = ([], [])) ∧
    (∀ (conn0 : Bool) (connAt : ℕ → Bool) (copyOk : String → Bool)
        (cfg : SyncConfig) (tree : List FSNode) (it : WorkItem)
        (rest : List WorkItem),
        drainQueue conn0 connAt copyOk cfg tree (it :: rest) =
          ((processItem conn0 connAt copyOk cfg tree it).1 ++
             (drainQueue conn0 connAt copyOk cfg tree rest).1,
           (processItem conn0 connAt copyOk cfg tree it).2 ++
             (drainQueue conn0 connAt copyOk cfg tree rest).2)) :=
  ⟨fun _ _ => rfl, fun _ _ _ _ _ => rfl,
   fun _ _ _ _ _ _ _ => by simp [drainQueue]⟩

/-- C5, counterexample.  In a 2-file batch with the device present for
the first file and gone at the second per-file check, the second file's
copy is never invoked: the loop breaks instead of attempting the
remaining file and letting its copy fail naturally. -/
theorem c5_counterexample :
    (sync_directory true (fun i => decide (i < 1)) (fun _ => true)
      ⟨"*.py", true⟩ "/d" [FSNode.file "a.py", FSNode.file "b.py"]).1 =
      [⟨"/d/a.py", "a.py"⟩] ∧
    (⟨"/d/b.py", "b.py"⟩ : FileRef) ∉
      (sync_directory true (fun i => decide (i < 1)) (fun _ => true)
        ⟨"*.py", true⟩ "/d" [FSNode.file "a.py", FSNode.file "b.py"]).1 := by
  constructor <;>
  · simp only [sync_directory, enumerateFiles, walkAll]
    decide

/-- C5, amended.  When the device disconnects mid-batch, the batch is
proactively aborted: the loop re-reads the connected flag before each
file and breaks at the first false reading, so exactly the files before
that point are attempted (and logged) and the remaining files get no
Transfer Gateway invocation and no per-file log; the completion log still
reports the full batch size. -/
theorem c5_break_on_disconnect (copyOk : String → Bool) (connAt : ℕ → Bool)
    (cfg : SyncConfig) (d : String) (tree : List FSNode) (k : ℕ)
    (hconn : ∀ j, j < k → connAt j = true) (hfail : connAt k = false)
    (hk : k < (enumerateFiles cfg d tree).length) :
    sync_directory true connAt copyOk cfg d tree =
      ((enumerateFiles cfg d tree).take k,
       ((enumerateFiles cfg d tree).take k).map (fileLog copyOk) ++
        [⟨"INFO", "Directory sync complete: " ++
          toString (enumerateFiles cfg d tree).length ++ " files"⟩]) := by
  have := syncLoop_break copyOk connAt (enumerateFiles cfg d tree) 0 k
    (by simpa using hconn) (by simpa using hfail) hk
  simp [sync_directory, this]

/-- C5, witness: the 2-file batch that loses the device after the first
file attempts only that file and still logs the batch size 2. -/
theorem c5_break_on_disconnect_witness :
    (∀ j, j < 1 → (fun i => decide (i < 1)) j = true) ∧
    (fun i => decide (i < 1)) 1 = false ∧
    1 < (enumerateFiles ⟨"*.py", true⟩ "/d"
          [FSNode.file "a.py", FSNode.file "b.py"]).length ∧
    sync_directory true (fun i => decide (i < 1)) (fun _ => true)
        ⟨"*.py", true⟩ "/d" [FSNode.file "a.py", FSNode.file "b.py"] =
      ((enumerateFiles ⟨"*.py", true⟩ "/d"
          [FSNode.file "a.py", FSNode.file "b.py"]).take 1,
       ((enumerateFiles ⟨"*.py", true⟩ "/d"
          [FSNode.file "a.py", FSNode.file "b.py"]).take 1).map
            (fileLog (fun _ => true)) ++
        [⟨"INFO", "Directory sync complete: " ++
          toString (enumerateFiles ⟨"*.py", true⟩ "/d"
            [FSNode.file "a.py", FSNode.file "b.py"]).length ++ " files"⟩]) :=
  ⟨fun j hj => by simp [hj], by decide,
   by simp only [enumerateFiles, walkAll]; decide,
   c5_break_on_disconnect (fun _ => true) (fun i => decide (i < 1))
     ⟨"*.py", true⟩ "/d" [FSNode.file "a.py", FSNode.file "b.py"] 1
     (fun j hj => by simp [hj]) (by decide)
     (by simp only [enumerateFiles, walkAll]; decide)⟩

/-- C6: with the device connected throughout, every file of a
`FullDirectory` batch is attempted regardless of individual copy
failures, each file's outcome is logged individually (`SUCCESS` or
`ERROR` per the copy result), and the batch completion log reports the
full batch size as the count of attempted files. -/
theorem c6_batch_continues (copyOk : String → Bool) (cfg : SyncConfig)
    (d : String) (tree : List FSNode) :
    sync_directory true (fun _ => true) copyOk cfg d tree =
      (enumerateFiles cfg d tree,
       (enumerateFiles cfg d tree).map (fileLog copyOk) ++
        [⟨"INFO", "Directory sync complete: " ++
          toString (enumerateFiles cfg d tree).length ++ " files"⟩]) := by
  simp [sync_directory, syncLoop_true]

/-- C7, counterexample.  The copy invocation of the sync paths passes no
`timeout=` argument at all: its wait on the external process is
unbounded, refuting the claim that every Transfer Gateway invocation
applies a bounded timeout. -/
theorem c7_counterexample :
    sync_copy_cmd "/d/a.py" "a.py" =
      ⟨["mpremote", "connect", "auto", "cp", "/d/a.py", ":a.py"], none⟩ ∧
    (sync_copy_cmd "/d/a.py" "a.py").timeoutSec = none :=
  ⟨rfl, rfl⟩

/-- C7, amended.  Only the device-identification calls bound their wait:
`detect_pico_model` and `check_micropython` pass `timeout=5`, while the
file-copy, listing and reset invocations pass no timeout, so a hung copy
can block the dispatcher's consumer loop indefinitely (there is no
watchdog). -/
theorem c7_timeouts :
    detect_pico_model_cmd.timeoutSec = some 5 ∧
    (∀ port, (check_micropython_cmd port).timeoutSec = some 5) ∧
    (∀ fp fn, (sync_copy_cmd fp fn).timeoutSec = none) ∧
    refresh_ls_cmd.timeoutSec = none ∧
    reset_cmd.timeoutSec = none :=
  ⟨rfl, fun _ => rfl, fun _ _ => rfl, rfl, rfl⟩

end PicoSync
